import Mathlib

/-!
Verification of the AST / visitor / printer core of the rust-graphql tool
(src/rust-graphql/src/main.rs).  The Rust data types are embedded as Lean
structures and inductives; the visitor protocol (methods taking `&mut self`)
is embedded as a record of state-passing functions `σ → node → σ`, and the
`Printer` visitor instantiates it at `σ = String`, the mutable `output`
accumulator becoming an explicit string argument.
-/

-- ---------- The structs (AST node model) ----------

/-- `Name`: an identifier leaf holding raw text (`pub value: String`). -/
structure Name where
  value : String
deriving Repr, DecidableEq

/-- `ScalarType`: optional description plus a name. -/
structure ScalarType where
  description : Option String
  name : Name
deriving Repr, DecidableEq

/-- `TypeDefinition`: tagged union, currently only the `Scalar` variant. -/
inductive TypeDefinition where
  | Scalar (st : ScalarType)
deriving Repr, DecidableEq

/-- `Definition`: tagged union, currently only the `TypeDefinition` variant. -/
inductive Definition where
  | TypeDefinition (td : TypeDefinition)
deriving Repr, DecidableEq

/-- `Document`: the root node, an ordered sequence of definitions. -/
structure Document where
  definitions : List Definition
deriving Repr, DecidableEq

-- ---------- The traits ----------

/-- The `Visitor` trait: one method per node kind.  Each Rust method takes
`&mut self`; here every method takes the visitor state `σ` and returns the
updated state. -/
structure Visitor (σ : Type) where
  visit_document : σ → Document → σ
  visit_definition : σ → Definition → σ
  visit_name : σ → Name → σ
  visit_scalar_type : σ → ScalarType → σ
  visit_type_definition : σ → TypeDefinition → σ

/-- `impl ASTNode for Document`: `accept` calls `v.visit_document(self)`. -/
def Document.accept {σ : Type} (v : Visitor σ) (s : σ) (d : Document) : σ :=
  v.visit_document s d

/-- `impl ASTNode for Definition`: `accept` calls `v.visit_definition(self)`. -/
def Definition.accept {σ : Type} (v : Visitor σ) (s : σ) (d : Definition) : σ :=
  v.visit_definition s d

/-- `impl ASTNode for TypeDefinition`: `accept` calls `v.visit_type_definition(self)`. -/
def TypeDefinition.accept {σ : Type} (v : Visitor σ) (s : σ) (td : TypeDefinition) : σ :=
  v.visit_type_definition s td

/-- `impl ASTNode for Name`: `accept` calls `v.visit_name(self)`. -/
def Name.accept {σ : Type} (v : Visitor σ) (s : σ) (n : Name) : σ :=
  v.visit_name s n

/-- `impl ASTNode for ScalarType`: `accept` calls `v.visit_scalar_type(self)`. -/
def ScalarType.accept {σ : Type} (v : Visitor σ) (s : σ) (st : ScalarType) : σ :=
  v.visit_scalar_type s st

/-- The `ASTNode` trait: anything with an `accept` operation polymorphic in
the visitor. -/
class ASTNode (α : Type) where
  accept : {σ : Type} → Visitor σ → σ → α → σ

instance : ASTNode Document := ⟨Document.accept⟩

instance : ASTNode Definition := ⟨Definition.accept⟩

instance : ASTNode TypeDefinition := ⟨TypeDefinition.accept⟩

instance : ASTNode Name := ⟨Name.accept⟩

instance : ASTNode ScalarType := ⟨ScalarType.accept⟩

-- ---------- The printer ----------

/-- `Printer::visit_name`: `self.output.push_str(&n.value)`. -/
def Printer.visit_name (s : String) (n : Name) : String :=
  s ++ n.value

/-- `Printer::visit_scalar_type`: if a description is present append
`"""\n<description>\n"""\n`; then visit the name; then append `;\n`. -/
def Printer.visit_scalar_type (s : String) (st : ScalarType) : String :=
  let s :=
    match st.description with
    | some description => s ++ "\"\"\"\n" ++ description ++ "\n\"\"\"\n"
    | none => s
  let s := Printer.visit_name s st.name
  s ++ ";\n"

/-- `Printer::visit_type_definition`: match on the variant; for `Scalar`
call `visit_scalar_type`. -/
def Printer.visit_type_definition (s : String) : TypeDefinition → String
  | TypeDefinition.Scalar st => Printer.visit_scalar_type s st

/-- `Printer::visit_definition`: match on the variant; for `TypeDefinition`
call `visit_type_definition`. -/
def Printer.visit_definition (s : String) : Definition → String
  | Definition.TypeDefinition td => Printer.visit_type_definition s td

/-- `Printer::visit_document`: for each definition in order, call
`visit_definition` (the Rust loop threads `self`; here `foldl` threads the
accumulator). -/
def Printer.visit_document (s : String) (d : Document) : String :=
  d.definitions.foldl Printer.visit_definition s

/-- The `Printer` bundled as a `Visitor` over its `output : String` state. -/
def printerVisitor : Visitor String where
  visit_document := Printer.visit_document
  visit_definition := Printer.visit_definition
  visit_name := Printer.visit_name
  visit_scalar_type := Printer.visit_scalar_type
  visit_type_definition := Printer.visit_type_definition

/-- `fn print<N: ASTNode>(n: &N) -> String`: build a `Printer` with empty
output, run `n.accept`, return the accumulated output. -/
def print {α : Type} [ASTNode α] (n : α) : String :=
  ASTNode.accept printerVisitor "" n

/-- The sample document constructed by `main`. -/
def my_document : Document :=
  { definitions :=
      [ Definition.TypeDefinition (TypeDefinition.Scalar
          { description := some "a value that we can use :)"
            name := { value := "MyScalar" } }),
        Definition.TypeDefinition (TypeDefinition.Scalar
          { description := none
            name := { value := "AnotherScalar" } }) ] }

-- ---------- Helper lemmas ----------

theorem str_append_assoc (a b c : String) : a ++ b ++ c = a ++ (b ++ c) := by
  apply String.ext
  simp [String.data_append]

/-- `visit_name` only appends to the accumulator; the appended text is what
the method produces from an empty accumulator. -/
theorem visit_name_delta (s : String) (n : Name) :
    Printer.visit_name s n = s ++ Printer.visit_name "" n := rfl

/-- `visit_scalar_type` only appends to the accumulator. -/
theorem visit_scalar_type_delta (s : String) (st : ScalarType) :
    Printer.visit_scalar_type s st = s ++ Printer.visit_scalar_type "" st := by
  obtain ⟨description, name⟩ := st
  cases description <;>
    (apply String.ext
     simp [Printer.visit_scalar_type, Printer.visit_name, String.data_append])

/-- `visit_type_definition` only appends to the accumulator. -/
theorem visit_type_definition_delta (s : String) (td : TypeDefinition) :
    Printer.visit_type_definition s td = s ++ Printer.visit_type_definition "" td := by
  cases td with
  | Scalar st => exact visit_scalar_type_delta s st

/-- `visit_definition` only appends to the accumulator. -/
theorem visit_definition_delta (s : String) (d : Definition) :
    Printer.visit_definition s d = s ++ Printer.visit_definition "" d := by
  cases d with
  | TypeDefinition td => exact visit_type_definition_delta s td

/-- Folding `visit_definition` over a list only appends to the accumulator. -/
theorem foldl_visit_definition_delta :
    ∀ (l : List Definition) (s : String),
      l.foldl Printer.visit_definition s = s ++ l.foldl Printer.visit_definition "" := by
  intro l
  induction l with
  | nil => intro s; exact (String.append_empty s).symm
  | cons d t ih =>
    intro s
    show t.foldl Printer.visit_definition (Printer.visit_definition s d) =
      s ++ t.foldl Printer.visit_definition (Printer.visit_definition "" d)
    rw [ih (Printer.visit_definition s d), visit_definition_delta s d,
      ih (Printer.visit_definition "" d), str_append_assoc]

/-- `visit_document` only appends to the accumulator. -/
theorem visit_document_delta (s : String) (d : Document) :
    Printer.visit_document s d = s ++ Printer.visit_document "" d :=
  foldl_visit_definition_delta d.definitions s

/-- The fold over definitions is the concatenation of each definition's own
printed text. -/
theorem foldl_visit_definition_join :
    ∀ l : List Definition,
      l.foldl Printer.visit_definition "" =
        String.join (l.map (Printer.visit_definition "")) := by
  intro l
  induction l with
  | nil => rfl
  | cons d t ih =>
    show t.foldl Printer.visit_definition (Printer.visit_definition "" d) =
      String.join (Printer.visit_definition "" d :: t.map (Printer.visit_definition ""))
    rw [foldl_visit_definition_delta t (Printer.visit_definition "" d), ih]
    apply String.ext
    simp [String.data_append, String.data_join]

-- ---------- Claim theorems ----------

/-- Claim C1: printing the concrete sample `Document` built by `main` (a
described scalar `MyScalar` followed by an undescribed scalar
`AnotherScalar`) yields exactly the expected schema text. -/
theorem print_sample_document :
    print my_document =
      "\"\"\"\na value that we can use :)\n\"\"\"\nMyScalar;\nAnotherScalar;\n" := rfl

/-- Claim C2: for every `ScalarType` with a description, `print` emits the
triple-quoted description block followed by the name and `;\n`, the
description text embedded verbatim (no escaping), even when it contains
the `"""` delimiter sequence. -/
theorem print_scalar_with_description (st : ScalarType) (text : String)
    (h : st.description = some text) :
    print st = "\"\"\"\n" ++ text ++ "\n\"\"\"\n" ++ st.name.value ++ ";\n" := by
  obtain ⟨description, name⟩ := st
  simp only at h
  subst h
  rfl

theorem print_scalar_with_description_witness :
    (ScalarType.mk (some "see \"\"\" inside") (Name.mk "S")).description =
        some "see \"\"\" inside" ∧
      print (ScalarType.mk (some "see \"\"\" inside") (Name.mk "S")) =
        "\"\"\"\n" ++ "see \"\"\" inside" ++ "\n\"\"\"\n" ++ "S" ++ ";\n" :=
  ⟨rfl, print_scalar_with_description (ScalarType.mk (some "see \"\"\" inside") (Name.mk "S"))
    "see \"\"\" inside" rfl⟩

/-- Claim C3: for every `ScalarType` without a description, `print` emits
exactly the raw name text followed by `;\n`, with no escaping, quoting or
validation; in particular an empty name yields `;\n` and is not rejected. -/
theorem print_scalar_no_description (st : ScalarType)
    (h : st.description = none) :
    print st = st.name.value ++ ";\n" := by
  obtain ⟨description, name⟩ := st
  simp only at h
  subst h
  rfl

theorem print_scalar_no_description_witness :
    (ScalarType.mk none (Name.mk "")).description = none ∧
      print (ScalarType.mk none (Name.mk "")) = ";\n" :=
  ⟨rfl, print_scalar_no_description (ScalarType.mk none (Name.mk "")) rfl⟩

/-- Claim C4: document printing is an order-preserving concatenation
homomorphism: printing the two-definition document equals the
concatenation of printing each singleton document, with nothing added. -/
theorem print_document_append_pair (a b : Definition) :
    print (Document.mk [a, b]) = print (Document.mk [a]) ++ print (Document.mk [b]) := by
  show Printer.visit_definition (Printer.visit_definition "" a) b =
    Printer.visit_definition "" a ++ Printer.visit_definition "" b
  exact visit_definition_delta (Printer.visit_definition "" a) b

/-- Claim C5: every document with zero definitions prints to the empty
string; the fold over the empty definition list performs no visit at all,
so nothing beyond the document-level call happens. -/
theorem print_empty_document (d : Document) (h : d.definitions = []) :
    print d = "" := by
  obtain ⟨defs⟩ := d
  simp only at h
  subst h
  rfl

theorem print_empty_document_witness :
    (Document.mk []).definitions = [] ∧ print (Document.mk []) = "" :=
  ⟨rfl, print_empty_document (Document.mk []) rfl⟩

/-- Claim C6: `print` is deterministic across repeated invocations on the
same tree: two calls yield identical strings, and this is because each
call starts from the freshly initialized empty accumulator — running the
same traversal from any prior accumulator state `s` yields `s` followed by
exactly the output of a fresh run, so no hidden state can leak between
calls. -/
theorem print_deterministic (d : Document) :
    print d = print d ∧
      ∀ s : String, Document.accept printerVisitor s d = s ++ print d :=
  ⟨rfl, fun s => visit_document_delta s d⟩

/-- Claim C7: for every node of a supported kind and every visitor, the
node's `accept` is exactly one synchronous call of the visitor method
matching the node's own kind, applied to the node itself; `accept` adds no
recursion of its own. -/
theorem accept_dispatches_single_method {σ : Type} (v : Visitor σ) (s : σ) :
    (∀ d : Document, Document.accept v s d = v.visit_document s d) ∧
      (∀ d : Definition, Definition.accept v s d = v.visit_definition s d) ∧
      (∀ td : TypeDefinition, TypeDefinition.accept v s td = v.visit_type_definition s td) ∧
      (∀ st : ScalarType, ScalarType.accept v s st = v.visit_scalar_type s st) ∧
      (∀ n : Name, Name.accept v s n = v.visit_name s n) :=
  ⟨fun _ => rfl, fun _ => rfl, fun _ => rfl, fun _ => rfl, fun _ => rfl⟩

/-- Claim C8: the Printer's composite visits unwrap the active variant
themselves: `visit_definition` on a wrapped type definition has exactly
the effect of `visit_type_definition` on the payload, likewise
`visit_type_definition` on a wrapped scalar; hence `print` of a wrapped
node equals `print` of its payload. -/
theorem printer_unwraps_composites (s : String) (td : TypeDefinition) (st : ScalarType) :
    Printer.visit_definition s (Definition.TypeDefinition td) =
        Printer.visit_type_definition s td ∧
      Printer.visit_type_definition s (TypeDefinition.Scalar st) =
        Printer.visit_scalar_type s st ∧
      print (Definition.TypeDefinition td) = print td ∧
      print (TypeDefinition.Scalar st) = print st :=
  ⟨rfl, rfl, rfl, rfl⟩

/-- Claim C9: `print` is a total pure function on every well-formed tree:
each document maps to a definite string, characterized in closed form as
the concatenation of the text each definition contributes; no input fails
(the embedding is a total function, structurally recursive on the tree, so
it terminates with recursion bounded by the nesting of the tree). -/
theorem print_total_closed_form (d : Document) :
    print d = String.join (d.definitions.map (Printer.visit_definition "")) :=
  foldl_visit_definition_join d.definitions

/-- Claim C10: the Printer's accumulator is append-only: for every visit
method, the result on accumulator `s` is `s` followed by a suffix that is
exactly the method's output on the empty accumulator — i.e. determined
solely by the visited node's subtree, and the prior value is a prefix of
the new one. -/
theorem printer_append_only (s : String) :
    (∀ n : Name, Printer.visit_name s n = s ++ Printer.visit_name "" n) ∧
      (∀ st : ScalarType,
        Printer.visit_scalar_type s st = s ++ Printer.visit_scalar_type "" st) ∧
      (∀ td : TypeDefinition,
        Printer.visit_type_definition s td = s ++ Printer.visit_type_definition "" td) ∧
      (∀ d : Definition,
        Printer.visit_definition s d = s ++ Printer.visit_definition "" d) ∧
      (∀ d : Document,
        Printer.visit_document s d = s ++ Printer.visit_document "" d) :=
  ⟨fun n => visit_name_delta s n, fun st => visit_scalar_type_delta s st,
    fun td => visit_type_definition_delta s td, fun d => visit_definition_delta s d,
    fun d => visit_document_delta s d⟩
